import Mathlib

/-!
Shallow embedding of the remote-servers modal of
`src/crates/recent_projects/src/remote_servers.rs` (the `RemoteServerProjects`
view): its registry data model, the settings-file transforms it issues, and the
workflow state machine (`Mode`) driven by `confirm`, `cancel`, the spawned
connection-attempt continuation, and `render`.

Modelling conventions:
* GPUI handles (`Model<Editor>`, `Model<SshPrompt>`, `Task`, focus/scroll
  handles) carry no registry logic; an editor is modelled by its text together
  with its read-only flag, and the prompt / `_creating` task fields by their
  presence (`Option Unit`).
* `BTreeSet<SshProject>` is modelled as a duplicate-free list: `insert` is a
  no-op when an equal element is present, `remove` erases the (unique) equal
  element.
* `Vec::remove(index)` panics when the index is out of bounds; the transform of
  `delete_ssh_server` is therefore partial, returning `none` for the panic.
* `SshConnectionOptions::parse_command_line` lives in the `remote` crate
  (outside this fragment); the workflow functions take the parser as an
  explicit parameter returning `Except` (its `Err` already rendered to the
  string that `format!("{:?}", e)` would produce).
* Settings-file updates (`update_settings_file`) are fire-and-forget; the
  model applies the requested transform to the settings component of `World`
  in the order the code issues it.
-/

namespace RemoteServers

/-- Rust `SshProject { paths: Vec<String> }` (settings content): a saved project,
identified by its list of paths. -/
structure SshProject where
  paths : List String
deriving DecidableEq, Repr

/-- Rust `SshConnection` from the settings content: one registered server.
`projects` is a `BTreeSet<SshProject>`, modelled as a duplicate-free list. -/
structure SshConnection where
  host : String
  username : Option String
  port : Option Nat
  projects : List SshProject
  nickname : Option String
  args : List String
  upload_binary_over_ssh : Option Bool
deriving DecidableEq, Repr

/-- Rust `RemoteSettingsContent { ssh_connections: Option<Vec<SshConnection>> }`:
the durable server registry. -/
structure RemoteSettingsContent where
  ssh_connections : Option (List SshConnection)
deriving DecidableEq, Repr

/-- Rust `remote::SshConnectionOptions` (the fields this file reads in
`add_ssh_server`, lines 895-915). -/
structure SshConnectionOptions where
  host : String
  username : Option String
  port : Option Nat
  args : Option (List String)
  nickname : Option String
deriving DecidableEq, Repr

/-- Model of `BTreeSet::insert`: no-op when an equal element is already present,
otherwise the element joins the set. -/
def btreeInsert (p : SshProject) (s : List SshProject) : List SshProject :=
  if p ∈ s then s else s ++ [p]

/-- Model of `BTreeSet::remove`: erases the (unique, by the set invariant) equal
element; no-op when absent. -/
def btreeRemove (p : SshProject) (s : List SshProject) : List SshProject :=
  s.erase p

/-- Model of `connections.get_mut(ix)` followed by mutating the entry in place:
applies `f` to the `ix`-th element, no-op when `ix` is out of range. -/
def getMutUpdate (ix : Nat) (f : SshConnection → SshConnection) :
    List SshConnection → List SshConnection
  | [] => []
  | c :: cs =>
    match ix with
    | 0 => f c :: cs
    | Nat.succ n => c :: getMutUpdate n f cs

/-- The transform issued by `ProjectPicker::new` (lines 173-181): insert a
project into the `ix`-th server's project set; no-op when `ssh_connections`
is `None` or `ix` is out of range. -/
def add_project_transform (ix : Nat) (paths : List String)
    (setting : RemoteSettingsContent) : RemoteSettingsContent :=
  match setting.ssh_connections with
  | none => setting
  | some cs =>
    ⟨some (getMutUpdate ix
      (fun server => { server with projects := btreeInsert ⟨paths⟩ server.projects }) cs)⟩

/-- The transform issued by `delete_ssh_project` (lines 876-893): remove the
matching project from the `server`-th server's set; no-op when
`ssh_connections` is `None` or the index is out of range. -/
def delete_ssh_project_transform (server : Nat) (project : SshProject)
    (setting : RemoteSettingsContent) : RemoteSettingsContent :=
  match setting.ssh_connections with
  | none => setting
  | some cs =>
    ⟨some (getMutUpdate server
      (fun s => { s with projects := btreeRemove project s.projects }) cs)⟩

/-- The transform issued by `delete_ssh_server` (lines 863-874):
`connections.remove(server)` on the `Vec`; `Vec::remove` panics when the
index is out of bounds, modelled as `none`. When `ssh_connections` is `None`
nothing happens. -/
def delete_ssh_server_transform (server : Nat)
    (setting : RemoteSettingsContent) : Option RemoteSettingsContent :=
  match setting.ssh_connections with
  | none => some setting
  | some cs =>
    if server < cs.length then some ⟨some (cs.eraseIdx server)⟩ else none

/-- The transform issued by `confirm` in `EditNickname` mode (lines 583-589):
replace the `index`-th server's nickname; no-op when `ssh_connections` is
`None` or the index is out of range. -/
def set_nickname_transform (index : Nat) (text : Option String)
    (setting : RemoteSettingsContent) : RemoteSettingsContent :=
  match setting.ssh_connections with
  | none => setting
  | some cs => ⟨some (getMutUpdate index (fun c => { c with nickname := text }) cs)⟩

/-- The `SshConnection` that `add_ssh_server` (lines 895-915) builds from the
parsed options: empty project set, no nickname, `args.unwrap_or_default()`. -/
def connection_of_options (o : SshConnectionOptions) : SshConnection :=
  ⟨o.host, o.username, o.port, [], none, o.args.getD [], none⟩

/-- The transform issued by `add_ssh_server` (lines 895-915):
`ssh_connections.get_or_insert(Default::default()).push(...)`. -/
def add_ssh_server_transform (o : SshConnectionOptions)
    (setting : RemoteSettingsContent) : RemoteSettingsContent :=
  ⟨some (setting.ssh_connections.getD [] ++ [connection_of_options o])⟩

/-- A single-line `Editor`: its text and its read-only flag. -/
structure EditorState where
  text : String
  read_only : Bool
deriving DecidableEq, Repr

/-- Drop leading whitespace characters from a character list. -/
def trimLeftChars : List Char → List Char
  | [] => []
  | c :: cs => if c.isWhitespace then trimLeftChars cs else c :: cs

/-- Rust `str::trim`: the string without leading and trailing whitespace. -/
def strTrim (s : String) : String :=
  ⟨(trimLeftChars (trimLeftChars s.data).reverse).reverse⟩

/-- Function `get_text` (lines 1427-1429): the editor's text, trimmed. -/
def get_text (element : EditorState) : String :=
  strTrim element.text

/-- State `CreateRemoteServer` (lines 56-61): the address editor, an
optional inline error, the optional `SshPrompt` of an in-flight attempt and
the optional `_creating` task, each modelled by presence. -/
structure CreateRemoteServer where
  address_editor : EditorState
  address_error : Option String
  ssh_prompt : Option Unit
  creating : Option Unit
deriving DecidableEq, Repr

/-- State `DefaultState` (lines 266-301): the snapshot of the registry taken when
the mode was built (`SshSettings::get_global(cx).ssh_connections()`); the
scrollbar and navigation handles carry no logic and are omitted. -/
structure DefaultState where
  servers : List SshConnection
deriving DecidableEq, Repr

/-- State `ViewServerOptionsState` (lines 303-308): the selected index and the
snapshot of its record taken when the mode was entered. -/
structure ViewServerOptionsState where
  server_index : Nat
  connection : SshConnection
deriving DecidableEq, Repr

/-- State `EditNicknameState` (lines 85-88): the selected index and the nickname
editor. -/
structure EditNicknameState where
  index : Nat
  editor : EditorState
deriving DecidableEq, Repr

/-- Union `Mode` (lines 309-315): the modal's tagged workflow state. The
`ProjectPicker` variant's picker holds no registry state relevant here. -/
inductive Mode where
  | Default (state : DefaultState)
  | ViewServerOptions (state : ViewServerOptionsState)
  | EditNickname (state : EditNicknameState)
  | ProjectPicker
  | CreateRemoteServer (state : CreateRemoteServer)
deriving DecidableEq, Repr

/-- Constructor `Mode::default_mode` (lines 317-321): rebuild the `Default` snapshot from
the live settings (`DefaultState::new` iterates
`SshSettings::get_global(cx).ssh_connections()`, empty when `None`). -/
def Mode.default_mode (setting : RemoteSettingsContent) : Mode :=
  Mode.Default ⟨setting.ssh_connections.getD []⟩

/-- View `RemoteServerProjects` (lines 49-54): the modal's mode and the count of
retained connections (`retained_connections: Vec<Model<SshRemoteClient>>`,
modelled by its length). -/
structure RemoteServerProjects where
  mode : Mode
  retained_connections : Nat
deriving DecidableEq, Repr

/-- The modal together with the live settings registry it reads and the
transforms it issues mutate. -/
structure World where
  modal : RemoteServerProjects
  settings : RemoteSettingsContent
deriving DecidableEq, Repr

/-- Observable effect of one user action, beyond the state change. -/
inductive Effect where
  | noEffect
  | promptConfirmed
  | attemptStarted
  | dismissed
deriving DecidableEq, Repr

/-- Method `create_ssh_server` (lines 384-462), synchronous part: trimmed-empty input
returns with nothing changed; a parse error re-enters `CreateRemoteServer`
with the same editor, the error set, and neither prompt nor task; a successful
parse sets the editor read-only and enters `CreateRemoteServer` with the
prompt and the `_creating` task, starting the attempt. -/
def create_ssh_server (parse : String → Except String SshConnectionOptions)
    (editor : EditorState) (w : World) : World × Effect :=
  let input := get_text editor
  if input = "" then
    (w, Effect.noEffect)
  else
    match parse input with
    | Except.error e =>
      (⟨⟨Mode.CreateRemoteServer ⟨editor, some ("could not parse: " ++ e), none, none⟩,
          w.modal.retained_connections⟩, w.settings⟩,
        Effect.noEffect)
    | Except.ok _ =>
      (⟨⟨Mode.CreateRemoteServer ⟨{ editor with read_only := true }, none, some (), some ()⟩,
          w.modal.retained_connections⟩, w.settings⟩,
        Effect.attemptStarted)

/-- The continuation spawned by `create_ssh_server` (lines 419-451), run when
the connection attempt resolves. Success (`Some(Some(client))`): retain the
client, issue `add_ssh_server`, rebuild `Default` mode. Any other outcome:
clear the editor's read-only flag and re-enter `CreateRemoteServer` with the
same editor, no inline error, no prompt, no task; the registry is untouched. -/
def connection_attempt_finish (success : Bool)
    (connection_options : SshConnectionOptions) (address_editor : EditorState)
    (w : World) : World :=
  if success then
    let settings := add_ssh_server_transform connection_options w.settings
    ⟨⟨Mode.default_mode settings, w.modal.retained_connections + 1⟩, settings⟩
  else
    ⟨⟨Mode.CreateRemoteServer ⟨{ address_editor with read_only := false }, none, none, none⟩,
        w.modal.retained_connections⟩, w.settings⟩

/-- Method `confirm` (lines 566-594). `Default`, `ViewServerOptions` and
`ProjectPicker` ignore it; `CreateRemoteServer` routes to the active prompt
when one exists and otherwise calls `create_ssh_server`; `EditNickname`
issues the nickname transform (empty text filtered to `None`, untrimmed) and
rebuilds `Default` mode. -/
def confirm (parse : String → Except String SshConnectionOptions)
    (w : World) : World × Effect :=
  match w.modal.mode with
  | Mode.Default _ => (w, Effect.noEffect)
  | Mode.ViewServerOptions _ => (w, Effect.noEffect)
  | Mode.ProjectPicker => (w, Effect.noEffect)
  | Mode.CreateRemoteServer state =>
    match state.ssh_prompt with
    | some _ => (w, Effect.promptConfirmed)
    | none => create_ssh_server parse state.address_editor w
  | Mode.EditNickname state =>
    let text := if state.editor.text.isEmpty then none else some state.editor.text
    let settings := set_nickname_transform state.index text w.settings
    (⟨⟨Mode.default_mode settings, w.modal.retained_connections⟩, settings⟩, Effect.noEffect)

/-- Method `cancel` (lines 596-615). `Default` dismisses the modal;
`CreateRemoteServer` with an active prompt drops the attempt and builds a
fresh `CreateRemoteServer` (new writable editor carrying the old text); every
other mode rebuilds `Default` from the live settings. -/
def cancel (w : World) : World × Effect :=
  match w.modal.mode with
  | Mode.Default _ => (w, Effect.dismissed)
  | Mode.CreateRemoteServer state =>
    match state.ssh_prompt with
    | some _ =>
      (⟨⟨Mode.CreateRemoteServer ⟨⟨state.address_editor.text, false⟩, none, none, none⟩,
          w.modal.retained_connections⟩, w.settings⟩, Effect.noEffect)
    | none =>
      (⟨⟨Mode.default_mode w.settings, w.modal.retained_connections⟩, w.settings⟩,
        Effect.noEffect)
  | _ =>
    (⟨⟨Mode.default_mode w.settings, w.modal.retained_connections⟩, w.settings⟩,
      Effect.noEffect)

/-- Method `Render::render` (lines 1444-1475) as far as the mode is concerned: only
`render_default` (lines 1286-1307) can change it, rebuilding the snapshot when
the cached server listing differs from the live `ssh_connections` (the
comparison is skipped when `ssh_connections` is `None`,
`map_or(false, ...)`). The renders of every other mode, in particular
`render_view_options` (lines 993-1246), draw from the mode's own snapshot and
never consult or index the live registry. -/
def render (w : World) : World :=
  match w.modal.mode with
  | Mode.Default state =>
    match w.settings.ssh_connections with
    | some connections =>
      if state.servers ≠ connections then
        ⟨⟨Mode.default_mode w.settings, w.modal.retained_connections⟩, w.settings⟩
      else w
    | none => w
  | _ => w

/-- The inline error stored by the mode, when in `CreateRemoteServer`. -/
def inline_error : Mode → Option String
  | Mode.CreateRemoteServer state => state.address_error
  | _ => none

/-- Registry well-formedness: every server's project set, being a `BTreeSet`,
holds no duplicates. -/
def SettingsWF (s : RemoteSettingsContent) : Prop :=
  ∀ c ∈ s.ssh_connections.getD [], c.projects.Nodup

/-- Sample server record used to instantiate theorems on concrete inputs. -/
def srvA : SshConnection := ⟨"a.example", none, none, [], none, [], none⟩

/-- Second sample server record. -/
def srvB : SshConnection := ⟨"b.example", none, none, [], none, [], none⟩

/-- Third sample server record. -/
def srvC : SshConnection := ⟨"c.example", none, none, [], none, [], none⟩

/-- Sample parsed options, as parsing `ssh alice@example.com` would yield. -/
def optsAlice : SshConnectionOptions := ⟨"example.com", some "alice", none, none, none⟩

theorem getMutUpdate_getElem (i : Nat) (f : SshConnection → SshConnection)
    (l : List SshConnection) (h : i < l.length) :
    (getMutUpdate i f l)[i]? = some (f (l.get ⟨i, h⟩)) := by
  induction l generalizing i with
  | nil => simp at h
  | cons c cs ih =>
    cases i with
    | zero => simp [getMutUpdate]
    | succ n => simpa [getMutUpdate] using ih n (Nat.lt_of_succ_lt_succ h)

theorem getMutUpdate_idem (i : Nat) (f : SshConnection → SshConnection)
    (l : List SshConnection) (h : ∀ c ∈ l, f (f c) = f c) :
    getMutUpdate i f (getMutUpdate i f l) = getMutUpdate i f l := by
  induction l generalizing i with
  | nil => simp [getMutUpdate]
  | cons c cs ih =>
    cases i with
    | zero => simp [getMutUpdate, h c (by simp)]
    | succ n =>
      simp only [getMutUpdate, List.cons.injEq, true_and]
      exact ih n (fun x hx => h x (by simp [hx]))

theorem getMutUpdate_eq_self (i : Nat) (f : SshConnection → SshConnection)
    (l : List SshConnection)
    (h : ∀ hi : i < l.length, f (l.get ⟨i, hi⟩) = l.get ⟨i, hi⟩) :
    getMutUpdate i f l = l := by
  induction l generalizing i with
  | nil => simp [getMutUpdate]
  | cons c cs ih =>
    cases i with
    | zero =>
      have hc : f c = c := h (Nat.succ_pos _)
      simp [getMutUpdate, hc]
    | succ n =>
      simp only [getMutUpdate, List.cons.injEq, true_and]
      exact ih n (fun hi => h (Nat.succ_lt_succ hi))

theorem btreeInsert_idem (p : SshProject) (s : List SshProject) :
    btreeInsert p (btreeInsert p s) = btreeInsert p s := by
  by_cases h : p ∈ s
  · simp [btreeInsert, h]
  · simp [btreeInsert, h]

theorem btreeInsert_count (p : SshProject) (s : List SshProject) (h : s.Nodup) :
    (btreeInsert p (btreeInsert p s)).count p = 1 := by
  rw [btreeInsert_idem]
  by_cases hm : p ∈ s
  · simpa [btreeInsert, hm] using List.count_eq_one_of_mem h hm
  · simp [btreeInsert, hm, List.count_append, List.count_eq_zero_of_not_mem hm]

theorem btreeRemove_idem (p : SshProject) (s : List SshProject) (h : s.Nodup) :
    btreeRemove p (btreeRemove p s) = btreeRemove p s := by
  have hnm : p ∉ s.erase p := fun hm => ((h.mem_erase_iff).1 hm).1 rfl
  simpa only [btreeRemove] using List.erase_of_not_mem hnm

/-- C2, code evaluated at the failing inputs: `delete_ssh_server` with an
out-of-range index reaches `Vec::remove` out of bounds and panics (`none`),
rather than being a silent no-op; with `ssh_connections: None`, and with an
in-range index, it behaves as the spec says. -/
theorem delete_ssh_server_out_of_range_panics :
    delete_ssh_server_transform 0 ⟨some []⟩ = none ∧
    delete_ssh_server_transform 1 ⟨some [srvA]⟩ = none ∧
    delete_ssh_server_transform 0 ⟨none⟩ = some ⟨none⟩ ∧
    delete_ssh_server_transform 0 ⟨some [srvA]⟩ = some ⟨some []⟩ :=
  ⟨rfl, rfl, rfl, rfl⟩

/-- C10: a confirm received in `CreateRemoteServer` mode with no attempt in
flight and whitespace-only editor text is a complete no-op: the world (mode
and registry) is returned unchanged, no attempt starts, no error is set, and
this holds uniformly in the parser (nothing is parsed). -/
theorem confirm_empty_input_noop (parse : String → Except String SshConnectionOptions)
    (st : CreateRemoteServer) (w : World)
    (hmode : w.modal.mode = Mode.CreateRemoteServer st)
    (hprompt : st.ssh_prompt = none)
    (hempty : get_text st.address_editor = "") :
    confirm parse w = (w, Effect.noEffect) := by
  simp [confirm, hmode, hprompt, create_ssh_server, hempty]

/-- Witness for C10 at a concrete whitespace-only input. -/
theorem confirm_empty_input_noop_witness :
    confirm (fun s => Except.ok ⟨s, none, none, none, none⟩)
        ⟨⟨Mode.CreateRemoteServer ⟨⟨"   ", false⟩, none, none, none⟩, 0⟩, ⟨some [srvA]⟩⟩ =
      (⟨⟨Mode.CreateRemoteServer ⟨⟨"   ", false⟩, none, none, none⟩, 0⟩, ⟨some [srvA]⟩⟩,
        Effect.noEffect) :=
  confirm_empty_input_noop (fun s => Except.ok ⟨s, none, none, none, none⟩)
    ⟨⟨"   ", false⟩, none, none, none⟩
    ⟨⟨Mode.CreateRemoteServer ⟨⟨"   ", false⟩, none, none, none⟩, 0⟩, ⟨some [srvA]⟩⟩
    rfl rfl (by decide)

/-- C4: a confirm issued while `CreateRemoteServer` mode has an in-flight
attempt (its `ssh_prompt` field is occupied) is routed to the active prompt
and changes nothing else: the world (including the single `_creating` slot
and the registry) is unchanged and no new attempt is started. -/
theorem confirm_routes_to_prompt (parse : String → Except String SshConnectionOptions)
    (st : CreateRemoteServer) (w : World)
    (hmode : w.modal.mode = Mode.CreateRemoteServer st)
    (hprompt : st.ssh_prompt = some ()) :
    confirm parse w = (w, Effect.promptConfirmed) := by
  simp [confirm, hmode, hprompt]

/-- Witness for C4 at a concrete in-flight state. -/
theorem confirm_routes_to_prompt_witness :
    confirm (fun s => Except.ok ⟨s, none, none, none, none⟩)
        ⟨⟨Mode.CreateRemoteServer ⟨⟨"ssh a.example", true⟩, none, some (), some ()⟩, 0⟩, ⟨none⟩⟩ =
      (⟨⟨Mode.CreateRemoteServer ⟨⟨"ssh a.example", true⟩, none, some (), some ()⟩, 0⟩, ⟨none⟩⟩,
        Effect.promptConfirmed) :=
  confirm_routes_to_prompt (fun s => Except.ok ⟨s, none, none, none, none⟩)
    ⟨⟨"ssh a.example", true⟩, none, some (), some ()⟩
    ⟨⟨Mode.CreateRemoteServer ⟨⟨"ssh a.example", true⟩, none, some (), some ()⟩, 0⟩, ⟨none⟩⟩
    rfl rfl

/-- C5: a malformed (trimmed-non-empty) connection string confirmed in
`CreateRemoteServer` mode with no attempt in flight leaves the workflow in
`CreateRemoteServer` with the same editor, the parse error set inline, no
prompt and no `_creating` task (no in-flight attempt), and the registry
untouched. -/
theorem confirm_parse_error_keeps_state (parse : String → Except String SshConnectionOptions)
    (st : CreateRemoteServer) (w : World) (err : String)
    (hmode : w.modal.mode = Mode.CreateRemoteServer st)
    (hprompt : st.ssh_prompt = none)
    (hne : get_text st.address_editor ≠ "")
    (hparse : parse (get_text st.address_editor) = Except.error err) :
    confirm parse w =
      (⟨⟨Mode.CreateRemoteServer
            ⟨st.address_editor, some ("could not parse: " ++ err), none, none⟩,
          w.modal.retained_connections⟩, w.settings⟩,
        Effect.noEffect) := by
  simp [confirm, hmode, hprompt, create_ssh_server, hne, hparse]

/-- Witness for C5 at a concrete malformed input. -/
theorem confirm_parse_error_keeps_state_witness :
    confirm (fun _ => Except.error "bad input")
        ⟨⟨Mode.CreateRemoteServer ⟨⟨"-p", false⟩, none, none, none⟩, 0⟩, ⟨some [srvA]⟩⟩ =
      (⟨⟨Mode.CreateRemoteServer ⟨⟨"-p", false⟩, some "could not parse: bad input", none, none⟩,
          0⟩, ⟨some [srvA]⟩⟩,
        Effect.noEffect) :=
  confirm_parse_error_keeps_state (fun _ => Except.error "bad input")
    ⟨⟨"-p", false⟩, none, none, none⟩
    ⟨⟨Mode.CreateRemoteServer ⟨⟨"-p", false⟩, none, none, none⟩, 0⟩, ⟨some [srvA]⟩⟩
    "bad input" rfl rfl (by decide) rfl

/-- C1 counterexample: after a connection-layer failure of the attempt started
from `ssh alice@example.com`, the mode is back in `CreateRemoteServer` with
the text intact, the editor writable and the registry unchanged — but the
inline error is `none`, not set as the claim states (the failure is surfaced
by a separate `Failed to connect` prompt attached to the task, lines 416). -/
theorem connect_failure_no_inline_error :
    inline_error
        (connection_attempt_finish false optsAlice ⟨"ssh alice@example.com", true⟩
          ⟨⟨Mode.CreateRemoteServer ⟨⟨"ssh alice@example.com", true⟩, none, some (), some ()⟩, 0⟩,
            ⟨some [srvA]⟩⟩).modal.mode = none ∧
    (connection_attempt_finish false optsAlice ⟨"ssh alice@example.com", true⟩
          ⟨⟨Mode.CreateRemoteServer ⟨⟨"ssh alice@example.com", true⟩, none, some (), some ()⟩, 0⟩,
            ⟨some [srvA]⟩⟩) =
      ⟨⟨Mode.CreateRemoteServer ⟨⟨"ssh alice@example.com", false⟩, none, none, none⟩, 0⟩,
        ⟨some [srvA]⟩⟩ :=
  ⟨rfl, rfl⟩

/-- C1 as amended: every connection-layer failure re-enters
`CreateRemoteServer` with the submitted address text preserved verbatim, the
editor writable again, no prompt and no task, and the registry and retained
connections untouched; the inline `address_error` is cleared to `none` (the
failure is surfaced through a separate error prompt, not inline). -/
theorem connect_failure_reenters_create (opts : SshConnectionOptions)
    (e : EditorState) (w : World) :
    connection_attempt_finish false opts e w =
      ⟨⟨Mode.CreateRemoteServer ⟨⟨e.text, false⟩, none, none, none⟩,
          w.modal.retained_connections⟩, w.settings⟩ := by
  cases e
  rfl

/-- Sample server whose project set holds the single project `/x`. -/
def srvP : SshConnection := ⟨"p.example", none, none, [⟨["/x"]⟩], none, [], none⟩

/-- C3 counterexample: with `ViewServerOptions{server_index: 1}` active and the
live registry externally shrunk to a single server, the next render leaves the
world — in particular the mode — unchanged: it does not return to `Default`
reflecting the live list. -/
theorem render_stale_view_options_not_reconciled :
    render ⟨⟨Mode.ViewServerOptions ⟨1, srvB⟩, 0⟩, ⟨some [srvA]⟩⟩ =
      ⟨⟨Mode.ViewServerOptions ⟨1, srvB⟩, 0⟩, ⟨some [srvA]⟩⟩ ∧
    (render ⟨⟨Mode.ViewServerOptions ⟨1, srvB⟩, 0⟩, ⟨some [srvA]⟩⟩).modal.mode ≠
      Mode.Default ⟨[srvA]⟩ :=
  ⟨rfl, by decide⟩

/-- C3 as amended: a render while `ViewServerOptions` is active never consults
the live registry and leaves the world unchanged (so the stale index is never
used to index the live list and nothing can panic); the mismatch detection
that rebuilds the listing from the live registry runs only when `Default`
mode renders. -/
theorem render_view_options_ignores_registry :
    (∀ (st : ViewServerOptionsState) (w : World),
        w.modal.mode = Mode.ViewServerOptions st → render w = w) ∧
    (∀ (ds : DefaultState) (cs : List SshConnection) (w : World),
        w.modal.mode = Mode.Default ds → w.settings.ssh_connections = some cs →
        ds.servers ≠ cs → (render w).modal.mode = Mode.Default ⟨cs⟩) := by
  constructor
  · intro st w hmode
    simp [render, hmode]
  · intro ds cs w hmode hcs hne
    simp [render, hmode, hcs, hne, Mode.default_mode]

/-- Witness for C3's amended statement at concrete worlds. -/
theorem render_view_options_ignores_registry_witness :
    render ⟨⟨Mode.ViewServerOptions ⟨0, srvA⟩, 0⟩, ⟨some []⟩⟩ =
      ⟨⟨Mode.ViewServerOptions ⟨0, srvA⟩, 0⟩, ⟨some []⟩⟩ ∧
    (render ⟨⟨Mode.Default ⟨[srvA, srvB]⟩, 0⟩, ⟨some [srvA]⟩⟩).modal.mode =
      Mode.Default ⟨[srvA]⟩ :=
  ⟨render_view_options_ignores_registry.1 ⟨0, srvA⟩
      ⟨⟨Mode.ViewServerOptions ⟨0, srvA⟩, 0⟩, ⟨some []⟩⟩ rfl,
    render_view_options_ignores_registry.2 ⟨[srvA, srvB]⟩ [srvA]
      ⟨⟨Mode.Default ⟨[srvA, srvB]⟩, 0⟩, ⟨some [srvA]⟩⟩ rfl rfl (by decide)⟩

/-- C9: the read-only lifecycle of the address editor. Starting an attempt (a
confirm whose input parses) sets the editor read-only; a failing attempt
restores it to writable while staying in `CreateRemoteServer`; a cancel while
the attempt is still showing its prompt yields a fresh writable editor
carrying the same text; a successful attempt leaves `CreateRemoteServer`
entirely, rebuilding `Default` mode. -/
theorem create_server_read_only_lifecycle :
    (∀ (parse : String → Except String SshConnectionOptions)
        (st : CreateRemoteServer) (w : World) (opts : SshConnectionOptions),
        w.modal.mode = Mode.CreateRemoteServer st → st.ssh_prompt = none →
        get_text st.address_editor ≠ "" →
        parse (get_text st.address_editor) = Except.ok opts →
        confirm parse w =
          (⟨⟨Mode.CreateRemoteServer
                ⟨⟨st.address_editor.text, true⟩, none, some (), some ()⟩,
              w.modal.retained_connections⟩, w.settings⟩,
            Effect.attemptStarted)) ∧
    (∀ (opts : SshConnectionOptions) (e : EditorState) (w : World),
        (connection_attempt_finish false opts e w).modal.mode =
          Mode.CreateRemoteServer ⟨⟨e.text, false⟩, none, none, none⟩) ∧
    (∀ (st : CreateRemoteServer) (w : World),
        w.modal.mode = Mode.CreateRemoteServer st → st.ssh_prompt = some () →
        cancel w =
          (⟨⟨Mode.CreateRemoteServer ⟨⟨st.address_editor.text, false⟩, none, none, none⟩,
              w.modal.retained_connections⟩, w.settings⟩,
            Effect.noEffect)) ∧
    (∀ (opts : SshConnectionOptions) (e : EditorState) (w : World),
        (connection_attempt_finish true opts e w).modal.mode =
          Mode.default_mode (add_ssh_server_transform opts w.settings)) := by
  refine ⟨?_, ?_, ?_, ?_⟩
  · intro parse st w opts hmode hprompt hne hparse
    simp [confirm, hmode, hprompt, create_ssh_server, hne, hparse]
  · intro opts e w
    obtain ⟨text, ro⟩ := e
    rfl
  · intro st w hmode hprompt
    simp [cancel, hmode, hprompt]
  · intro opts e w
    rfl

/-- Witness for C9 at concrete attempts. -/
theorem create_server_read_only_lifecycle_witness :
    confirm (fun _ => Except.ok optsAlice)
        ⟨⟨Mode.CreateRemoteServer ⟨⟨"ssh alice@example.com", false⟩, none, none, none⟩, 0⟩,
          ⟨none⟩⟩ =
      (⟨⟨Mode.CreateRemoteServer ⟨⟨"ssh alice@example.com", true⟩, none, some (), some ()⟩, 0⟩,
          ⟨none⟩⟩,
        Effect.attemptStarted) ∧
    (connection_attempt_finish false optsAlice ⟨"ssh alice@example.com", true⟩
        ⟨⟨Mode.ProjectPicker, 0⟩, ⟨none⟩⟩).modal.mode =
      Mode.CreateRemoteServer ⟨⟨"ssh alice@example.com", false⟩, none, none, none⟩ ∧
    cancel ⟨⟨Mode.CreateRemoteServer ⟨⟨"ssh alice@example.com", true⟩, none, some (), some ()⟩, 0⟩,
        ⟨none⟩⟩ =
      (⟨⟨Mode.CreateRemoteServer ⟨⟨"ssh alice@example.com", false⟩, none, none, none⟩, 0⟩,
          ⟨none⟩⟩,
        Effect.noEffect) ∧
    (connection_attempt_finish true optsAlice ⟨"ssh alice@example.com", true⟩
        ⟨⟨Mode.ProjectPicker, 0⟩, ⟨none⟩⟩).modal.mode =
      Mode.default_mode (add_ssh_server_transform optsAlice ⟨none⟩) :=
  ⟨create_server_read_only_lifecycle.1 (fun _ => Except.ok optsAlice)
      ⟨⟨"ssh alice@example.com", false⟩, none, none, none⟩
      ⟨⟨Mode.CreateRemoteServer ⟨⟨"ssh alice@example.com", false⟩, none, none, none⟩, 0⟩, ⟨none⟩⟩
      optsAlice rfl rfl (by decide) rfl,
    create_server_read_only_lifecycle.2.1 optsAlice ⟨"ssh alice@example.com", true⟩
      ⟨⟨Mode.ProjectPicker, 0⟩, ⟨none⟩⟩,
    create_server_read_only_lifecycle.2.2.1
      ⟨⟨"ssh alice@example.com", true⟩, none, some (), some ()⟩
      ⟨⟨Mode.CreateRemoteServer ⟨⟨"ssh alice@example.com", true⟩, none, some (), some ()⟩, 0⟩,
        ⟨none⟩⟩ rfl rfl,
    create_server_read_only_lifecycle.2.2.2 optsAlice ⟨"ssh alice@example.com", true⟩
      ⟨⟨Mode.ProjectPicker, 0⟩, ⟨none⟩⟩⟩

/-- C6: confirming `EditNickname` issues the nickname transform — empty editor
text is filtered to `None`, non-empty text is stored as `Some` — on the
`index`-th server, and the mode returns to `Default`. -/
theorem confirm_edit_nickname (parse : String → Except String SshConnectionOptions)
    (st : EditNicknameState) (w : World) (cs : List SshConnection)
    (hmode : w.modal.mode = Mode.EditNickname st)
    (hcs : w.settings.ssh_connections = some cs)
    (hix : st.index < cs.length) :
    (confirm parse w).1.settings =
        set_nickname_transform st.index
          (if st.editor.text.isEmpty then none else some st.editor.text) w.settings ∧
    ((confirm parse w).1.settings.ssh_connections.getD [])[st.index]? =
        some { cs.get ⟨st.index, hix⟩ with
          nickname := if st.editor.text.isEmpty then none else some st.editor.text } ∧
    (confirm parse w).1.modal.mode = Mode.default_mode (confirm parse w).1.settings := by
  have hc : confirm parse w =
      (⟨⟨Mode.default_mode (set_nickname_transform st.index
            (if st.editor.text.isEmpty then none else some st.editor.text) w.settings),
          w.modal.retained_connections⟩,
        set_nickname_transform st.index
          (if st.editor.text.isEmpty then none else some st.editor.text) w.settings⟩,
        Effect.noEffect) := by
    simp [confirm, hmode]
  refine ⟨by rw [hc], ?_, by rw [hc]⟩
  rw [hc]
  simp only [set_nickname_transform, hcs, Option.getD_some]
  exact getMutUpdate_getElem st.index _ cs hix

/-- Witness for C6: editing the nickname of server index 2 to the empty string
stores `none` (the record is unchanged apart from the normalized nickname) and
returns to `Default`. -/
theorem confirm_edit_nickname_witness :
    (confirm (fun _ => Except.error "e")
        ⟨⟨Mode.EditNickname ⟨2, ⟨"", false⟩⟩, 0⟩, ⟨some [srvA, srvB, srvC]⟩⟩).1.settings =
      set_nickname_transform 2 none ⟨some [srvA, srvB, srvC]⟩ ∧
    ((confirm (fun _ => Except.error "e")
        ⟨⟨Mode.EditNickname ⟨2, ⟨"", false⟩⟩, 0⟩,
          ⟨some [srvA, srvB, srvC]⟩⟩).1.settings.ssh_connections.getD [])[2]? =
      some srvC ∧
    (confirm (fun _ => Except.error "e")
        ⟨⟨Mode.EditNickname ⟨2, ⟨"", false⟩⟩, 0⟩,
          ⟨some [srvA, srvB, srvC]⟩⟩).1.modal.mode =
      Mode.default_mode (confirm (fun _ => Except.error "e")
        ⟨⟨Mode.EditNickname ⟨2, ⟨"", false⟩⟩, 0⟩,
          ⟨some [srvA, srvB, srvC]⟩⟩).1.settings :=
  confirm_edit_nickname (fun _ => Except.error "e") ⟨2, ⟨"", false⟩⟩
    ⟨⟨Mode.EditNickname ⟨2, ⟨"", false⟩⟩, 0⟩, ⟨some [srvA, srvB, srvC]⟩⟩
    [srvA, srvB, srvC] rfl rfl (by decide)

/-- C7: re-adding an identical path-set to a server's project set is
idempotent at the registry level, and, the set holding no duplicates, the
doubly-added project appears exactly once. -/
theorem add_project_idempotent :
    (∀ (ix : Nat) (paths : List String) (s : RemoteSettingsContent),
        add_project_transform ix paths (add_project_transform ix paths s) =
          add_project_transform ix paths s) ∧
    (∀ (p : SshProject) (ps : List SshProject), ps.Nodup →
        (btreeInsert p (btreeInsert p ps)).count p = 1) := by
  constructor
  · intro ix paths s
    obtain ⟨conns⟩ := s
    cases conns with
    | none => simp [add_project_transform]
    | some cs =>
      simp only [add_project_transform]
      rw [getMutUpdate_idem]
      intro c hc
      obtain ⟨host, user, port, projects, nick, args, upload⟩ := c
      simp [btreeInsert_idem]
  · intro p ps h
    exact btreeInsert_count p ps h

/-- Witness for C7 on a concrete registry and project. -/
theorem add_project_idempotent_witness :
    add_project_transform 0 ["/home/alice"]
        (add_project_transform 0 ["/home/alice"] ⟨some [srvA]⟩) =
      add_project_transform 0 ["/home/alice"] ⟨some [srvA]⟩ ∧
    (btreeInsert ⟨["/home/alice"]⟩ (btreeInsert ⟨["/home/alice"]⟩ [])).count
        ⟨["/home/alice"]⟩ = 1 :=
  ⟨add_project_idempotent.1 0 ["/home/alice"] ⟨some [srvA]⟩,
    add_project_idempotent.2 ⟨["/home/alice"]⟩ [] List.nodup_nil⟩

/-- C8: removing a project record from a server's project set is idempotent at
the registry level (given the `BTreeSet` invariant that project sets hold no
duplicates), and removing an absent record is a no-op. -/
theorem remove_project_idempotent (server : Nat) (project : SshProject)
    (s : RemoteSettingsContent) (hwf : SettingsWF s) :
    delete_ssh_project_transform server project
        (delete_ssh_project_transform server project s) =
      delete_ssh_project_transform server project s ∧
    (∀ (cs : List SshConnection), s.ssh_connections = some cs →
        ∀ h : server < cs.length, project ∉ (cs.get ⟨server, h⟩).projects →
          delete_ssh_project_transform server project s = s) := by
  constructor
  · obtain ⟨conns⟩ := s
    cases conns with
    | none => simp [delete_ssh_project_transform]
    | some cs =>
      simp only [delete_ssh_project_transform]
      rw [getMutUpdate_idem]
      intro c hc
      have hnd : c.projects.Nodup := hwf c (by simpa using hc)
      obtain ⟨host, user, port, projects, nick, args, upload⟩ := c
      simp only at hnd
      simp [btreeRemove_idem project projects hnd]
  · intro cs hcs h hnm
    obtain ⟨conns⟩ := s
    simp only at hcs
    subst hcs
    simp only [delete_ssh_project_transform]
    rw [getMutUpdate_eq_self]
    intro hi
    have h2 : project ∉ (cs.get ⟨server, hi⟩).projects := hnm
    have h3 := List.erase_of_not_mem h2
    simp only [btreeRemove]
    rw [h3]

/-- Witness for C8: double removal on a concrete registry, and removal of an
absent record. -/
theorem remove_project_idempotent_witness :
    delete_ssh_project_transform 0 ⟨["/x"]⟩
        (delete_ssh_project_transform 0 ⟨["/x"]⟩ ⟨some [srvP]⟩) =
      delete_ssh_project_transform 0 ⟨["/x"]⟩ ⟨some [srvP]⟩ ∧
    delete_ssh_project_transform 0 ⟨["/y"]⟩ ⟨some [srvP]⟩ = ⟨some [srvP]⟩ :=
  ⟨(remove_project_idempotent 0 ⟨["/x"]⟩ ⟨some [srvP]⟩
      (by intro c hc; rw [Option.getD_some, List.mem_singleton] at hc; subst hc; decide)).1,
    (remove_project_idempotent 0 ⟨["/y"]⟩ ⟨some [srvP]⟩
      (by intro c hc; rw [Option.getD_some, List.mem_singleton] at hc; subst hc; decide)).2
      [srvP] rfl (by decide) (by decide)⟩

end RemoteServers
